import Mathlib

/-!
Shallow embedding of the pmacFilterControl supervision/synchronisation code.

Two Python modules implement the wrapper:
* `pmacFilterControlWrapper.py` at the repository root (the legacy wrapper):
  it owns the HDF5 attenuation table directly (`_open_file`, `_close_file`,
  `_write_to_hdf5`).  Embedded below in namespace `Old`.
* `src/pmacfiltercontrol/pmacFilterControlWrapper.py` (the packaged wrapper):
  it delegates file handling to an `HDFAdapter` (whose module is not among the
  sources) and contains the status handling with the state-code wrap and the
  timeout-triggered close.  Embedded below in namespace `New`.

Machine integers are modelled as `Int`/`Nat` (the Python integers are
arbitrary precision, so no wrap-around is modelled).  Python exceptions are
modelled with `Except`: a `.error` value is a raised exception propagating out
of the embedded function.
-/

namespace PFC

/-- The pair of equal-length HDF5 datasets of the attenuation file:
`adjustment` and `attenuation`, indexed by frame number
(`ADJUSTMENT_KEY`/`ATTENUATION_KEY` in the source). -/
structure Table where
  adjustment : List Int
  attenuation : List Int
deriving Repr, DecidableEq

/-- One frame message from the event stream: the values of the
`frame_number`, `adjustment` and `attenuation` keys. -/
structure FrameRec where
  frame_number : Nat
  adjustment : Int
  attenuation : Int
deriving Repr, DecidableEq

/-- The resize loop of `_write_to_hdf5`
(`while dset_size <= data[FRAME_NUMBER_KEY]: dset_size = dset_size + 1`). -/
def grow_size (dset_size frame : Nat) : Nat :=
  if dset_size ≤ frame then grow_size (dset_size + 1) frame else dset_size
termination_by frame + 1 - dset_size

/-- `h5py.Dataset.resize((n,))` on a 1-d integer dataset: truncates or
extends to length `n`; new slots hold the default fill value `0`. -/
def dset_resize (l : List Int) (n : Nat) : List Int :=
  l.take n ++ List.replicate (n - l.length) 0

/-- An open `h5py.File`: its name and, once `_write_to_hdf5` has created
them, the two datasets. -/
structure H5File where
  filename : String
  dsets : Option Table
deriving Repr, DecidableEq

/-- `h5py.File(name, "w")`: a fresh file has no datasets yet. -/
def freshFile (name : String) : H5File :=
  { filename := name, dsets := none }

/-- The dataset pair of a file; `⟨[], []⟩` when none have been created. -/
def tableOf (f : H5File) : Table :=
  f.dsets.getD { adjustment := [], attenuation := [] }

/-- Length of the adjustment dataset (`0` when no datasets exist). -/
def adjLen (f : H5File) : Nat := (tableOf f).adjustment.length

/-- Length of the attenuation dataset (`0` when no datasets exist). -/
def attLen (f : H5File) : Nat := (tableOf f).attenuation.length

/-- Read slot `i` of the adjustment dataset. -/
def adjGet (f : H5File) (i : Nat) : Option Int := (tableOf f).adjustment[i]?

/-- Read slot `i` of the attenuation dataset. -/
def attGet (f : H5File) (i : Nat) : Option Int := (tableOf f).attenuation[i]?

/-- `Wrapper._write_to_hdf5` of the legacy wrapper (lines 607-634).
Creates the two `(128,)` datasets if missing, grows both (via the
incrementing loop and `resize`) when `frame_number >= dset_size`, then sets
the slot at `frame_number` in both.  The two `assert` statements of the
source (`adjustment_dset.size == attenuation_dset.size`, and the `np_int64`
instance check) always hold on the states reachable here, so they are not
modelled as failures. -/
def write_to_hdf5 (f : H5File) (data : FrameRec) : H5File :=
  let t0 : Table :=
    match f.dsets with
    | none => { adjustment := List.replicate 128 0, attenuation := List.replicate 128 0 }
    | some t => t
  let dset_size := t0.adjustment.length
  let newSize :=
    if dset_size ≤ data.frame_number then grow_size dset_size data.frame_number
    else dset_size
  let adj1 := if dset_size ≤ data.frame_number then dset_resize t0.adjustment newSize else t0.adjustment
  let att1 := if dset_size ≤ data.frame_number then dset_resize t0.attenuation newSize else t0.attenuation
  { f with
    dsets := some
      { adjustment := adj1.set data.frame_number data.adjustment,
        attenuation := att1.set data.frame_number data.attenuation } }

/-- A sequence of frame writes applied in order. -/
def applyWrites (f : H5File) (ws : List FrameRec) : H5File :=
  ws.foldl write_to_hdf5 f

/-- The dataset pair as `_write_to_hdf5` sees it after its two
`create_dataset` guards: a file without datasets gets the fresh `(128,)`
zero-filled pair. -/
def baseTable (f : H5File) : Table :=
  match f.dsets with
  | none => { adjustment := List.replicate 128 0, attenuation := List.replicate 128 0 }
  | some t => t

/-- `dset_size` as `_write_to_hdf5` computes it. -/
def baseLen (f : H5File) : Nat := (baseTable f).adjustment.length

/-- Attenuation analogue of `baseLen`. -/
def baseAtt (f : H5File) : Nat := (baseTable f).attenuation.length

/-- A decoded status payload: the JSON object under the `status` key,
holding integer-valued fields looked up by name (`status["state"]` etc.).
A missing key raises `KeyError` in Python, modelled via `List.lookup`
returning `none`. -/
abbrev StatusDict := List (String × Int)

/-- The EPICS records that `_handle_status` publishes the status fields
into (the "state sink"): `STATE`, `VERSION`, `PROCESS:DURATION`,
`PROCESS:PERIOD`, `FRAME:RECEIVED`, `FRAME:PROCESSED`, `FRAME:LAST_TIME`
and `ATTENUATION_RBV`. -/
structure Sink where
  state : Int
  version : String
  process_duration : Int
  process_period : Int
  last_frame_received : Int
  last_frame_processed : Int
  time_since_last_frame : Int
  current_attenuation : Int
deriving Repr, DecidableEq

namespace Old

/-- The mutable state of the legacy `Wrapper` that its file handling and
status handling touch: the optional open HDF5 file handle `self.h5f`, the
`FILE:FULL_NAME` record, the `TIMEOUT_RBV` record and the status sink
records. -/
structure WState where
  h5f : Option H5File
  file_full_name : String
  timeout_rbv : Int
  sink : Sink
deriving Repr, DecidableEq

/-- `Wrapper._open_file` of the legacy wrapper (lines 318-327).  The
filesystem checks of `self._check_path()` are abstracted as the boolean
argument `check_path`.  Returns the updated state and the Python return
value.  Note the source returns `True` even when nothing was opened
because the path check failed. -/
def open_file (s : WState) (check_path : Bool) : WState × Bool :=
  match s.h5f with
  | none =>
    if check_path then
      ({ s with h5f := some (freshFile s.file_full_name) }, true)
    else
      (s, true)
  | some f =>
    if s.file_full_name ≠ f.filename then
      (s, false)
    else
      (s, true)

/-- `Wrapper._close_file` of the legacy wrapper (lines 329-332):
`assert isinstance(self.h5f, h5py.File)` raises `AssertionError` when no
file is open; otherwise the handle is closed and cleared. -/
def close_file (s : WState) : Except String WState :=
  match s.h5f with
  | none => .error "AssertionError"
  | some _ => .ok { s with h5f := none }

/-- `Wrapper._handle_status` of the legacy wrapper (lines 352-381): reads
the eight status fields in order, publishing each to its record; the state
code is published unchanged (no wrap in this wrapper).  After publishing
`time_since_last_message` it closes the file when the elapsed time exceeds
`TIMEOUT_RBV` and a file is open, swallowing any exception from the close.
A missing key raises `KeyError` (`Except.error`, carrying the state at the
point of the raise). -/
def handle_status (s : WState) (status : StatusDict) : Except WState WState :=
  match status.lookup "state" with
  | none => .error s
  | some v0 =>
  let s := { s with sink := { s.sink with state := v0 } }
  match status.lookup "version" with
  | none => .error s
  | some v1 =>
  let s := { s with sink := { s.sink with version := toString v1 } }
  match status.lookup "process_duration" with
  | none => .error s
  | some v2 =>
  let s := { s with sink := { s.sink with process_duration := v2 } }
  match status.lookup "process_period" with
  | none => .error s
  | some v3 =>
  let s := { s with sink := { s.sink with process_period := v3 } }
  match status.lookup "last_received_frame" with
  | none => .error s
  | some v4 =>
  let s := { s with sink := { s.sink with last_frame_received := v4 } }
  match status.lookup "last_processed_frame" with
  | none => .error s
  | some v5 =>
  let s := { s with sink := { s.sink with last_frame_processed := v5 } }
  match status.lookup "time_since_last_message" with
  | none => .error s
  | some v6 =>
  let s := { s with sink := { s.sink with time_since_last_frame := v6 } }
  let s :=
    if v6 > s.timeout_rbv ∧ s.h5f.isSome then
      match close_file s with
      | .ok s2 => s2
      | .error _ => s
    else s
  match status.lookup "current_attenuation" with
  | none => .error s
  | some v7 =>
  .ok { s with sink := { s.sink with current_attenuation := v7 } }

/-- The wrapper state after `_handle_status`, whether it returned or
raised: the already-performed record updates persist either way. -/
def hsState (s : WState) (status : StatusDict) : WState :=
  match handle_status s status with
  | .ok s2 => s2
  | .error s2 => s2

end Old

/-- A command sent on the ZeroMQ command stream (`_send_message`). -/
inductive Msg
| reqStatus
| configureTimeout (t : Int)
| configureMode (m : Int)
deriving Repr, DecidableEq

/-- An observable side effect of a packaged-wrapper operation: a message
sent to the device, or the delegation `self.h5f._close_file()` instructing
the recorder to close the output file. -/
inductive Effect
| sent (m : Msg)
| closeCall
deriving Repr, DecidableEq

/-- A trace of side effects, in the order they were performed. -/
abbrev Eff := List Effect

namespace New

/-- The mutable state of the packaged `Wrapper`
(`src/pmacfiltercontrol/pmacFilterControlWrapper.py`) that the embedded
operations touch: the `self.connected` flag, the `self.status_recv` flag,
the `HDFAdapter` contents (`self.h5f`: `some` table while a file is open,
`none` otherwise), the `TIMEOUT_RBV`, `MODE_RBV`, `FILE:OPEN` and
`FILE:CLOSE` records, and the status sink records. -/
structure WState where
  connected : Bool
  status_recv : Bool
  h5 : Option Table
  timeout_rbv : Int
  mode_rbv : Int
  file_open_rec : Int
  file_close_rec : Int
  sink : Sink
deriving Repr, DecidableEq

/-- The `_if_connected` decorator (lines 56-77 of both wrappers): when
`self.connected` is false it prints a warning and returns `True` without
calling the wrapped function; otherwise it calls it.  A wrapped operation
returns the new state, its effect trace and its Python return value
(`none` for the usual `None`, `some true` for the guard's `True`). -/
def if_connected (f : WState → WState × Eff × Option Bool) (s : WState) :
    WState × Eff × Option Bool :=
  if ¬ s.connected then (s, [], some true) else f s

/-- Modelled from the spec: `HDFAdapter._close_file`
(`src/pmacfiltercontrol/hdfadapter.py` is not among the sources).  Spec
section 4.5: `close()` "flushes and releases the file handle; safe to call
when nothing is open (idempotent no-op)". -/
def hdf_close_file (_h5 : Option Table) : Option Table := none

/-- Modelled from the spec: `HDFAdapter._write_to_file`
(`src/pmacfiltercontrol/hdfadapter.py` is not among the sources).  Spec
section 4.5: `write(record)` grows both sequences to
`record.frame_number + 1` if needed, filling new slots with zero, then
sets both entries at `record.frame_number`; realised with the same table
operation as the legacy `_write_to_hdf5`. -/
def hdf_write_to_file (t : Table) (r : FrameRec) : Table :=
  tableOf (write_to_hdf5 { filename := "", dsets := some t } r)

/-- Body of `Wrapper.close_file` of the packaged wrapper (lines 652-666):
when called with `1` it delegates to `self.h5f._close_file()` (recorded as
`Effect.closeCall`), then resets the `FILE:OPEN` record if set. -/
def close_file_body (x : Int) (s : WState) : WState × Eff × Option Bool :=
  let se : WState × Eff :=
    if x = 1 then ({ s with h5 := hdf_close_file s.h5 }, [Effect.closeCall])
    else (s, [])
  let s2 :=
    if se.1.file_open_rec ≠ 0 then { se.1 with file_open_rec := 0 } else se.1
  (s2, se.2, none)

/-- `Wrapper.close_file` of the packaged wrapper: `close_file_body` behind
the `_if_connected` guard. -/
def close_file (s : WState) (x : Int) : WState × Eff × Option Bool :=
  if_connected (close_file_body x) s

/-- Body of `Wrapper._set_timeout` of the packaged wrapper (lines 796-806):
sends `configure {timeout}` and sets `TIMEOUT_RBV`. -/
def set_timeout_body (t : Int) (s : WState) : WState × Eff × Option Bool :=
  ({ s with timeout_rbv := t }, [Effect.sent (Msg.configureTimeout t)], none)

/-- `Wrapper._set_timeout` of the packaged wrapper: the body behind the
`_if_connected` guard. -/
def set_timeout (s : WState) (t : Int) : WState × Eff × Option Bool :=
  if_connected (set_timeout_body t) s

/-- `Wrapper._handle_status` of the packaged wrapper (lines 692-726).
Reads the eight status fields in order, publishing each to its record.
The state code is wrapped (`state < 0` becomes `16 + state`) before
publishing.  After publishing `time_since_last_message` it calls
`self.close_file(1)` when the elapsed time exceeds `TIMEOUT_RBV` and
`last_received_frame > 1`.  A missing key raises `KeyError`
(`Except.error`, carrying the state and effects at the point of the
raise). -/
def handle_status (s : WState) (status : StatusDict) :
    Except (WState × Eff) (WState × Eff) :=
  match status.lookup "state" with
  | none => .error (s, [])
  | some v0 =>
  let s := { s with sink := { s.sink with state := if v0 < 0 then 16 + v0 else v0 } }
  match status.lookup "version" with
  | none => .error (s, [])
  | some v1 =>
  let s := { s with sink := { s.sink with version := toString v1 } }
  match status.lookup "process_duration" with
  | none => .error (s, [])
  | some v2 =>
  let s := { s with sink := { s.sink with process_duration := v2 } }
  match status.lookup "process_period" with
  | none => .error (s, [])
  | some v3 =>
  let s := { s with sink := { s.sink with process_period := v3 } }
  match status.lookup "last_received_frame" with
  | none => .error (s, [])
  | some v4 =>
  let s := { s with sink := { s.sink with last_frame_received := v4 } }
  match status.lookup "last_processed_frame" with
  | none => .error (s, [])
  | some v5 =>
  let s := { s with sink := { s.sink with last_frame_processed := v5 } }
  match status.lookup "time_since_last_message" with
  | none => .error (s, [])
  | some v6 =>
  let s := { s with sink := { s.sink with time_since_last_frame := v6 } }
  let r :=
    if v6 > s.timeout_rbv ∧ v4 > 1 then close_file s 1 else (s, [], none)
  let s := r.1
  let eff := r.2.1
  match status.lookup "current_attenuation" with
  | none => .error (s, eff)
  | some v7 =>
  .ok ({ s with sink := { s.sink with current_attenuation := v7 } }, eff)

/-- The wrapper state after `_handle_status`, whether it returned or
raised: the already-performed record updates and effects persist either
way. -/
def hsOut (s : WState) (status : StatusDict) : WState × Eff :=
  match handle_status s status with
  | .ok p => p
  | .error p => p

/-- State component of `hsOut`. -/
def hsState (s : WState) (status : StatusDict) : WState := (hsOut s status).1

/-- Effect-trace component of `hsOut`. -/
def hsEff (s : WState) (status : StatusDict) : Eff := (hsOut s status).2

/-- Whether `_handle_status` raised (a `KeyError` escaped). -/
def hsRaised (s : WState) (status : StatusDict) : Bool :=
  match handle_status s status with
  | .ok _ => false
  | .error _ => true

/-- A JSON object as the two monitor loops inspect it: the decoded payload
under the `status` key when present, and the decoded frame record when a
`frame_number` key is present. -/
structure ParsedObj where
  status : Option StatusDict
  frame : Option FrameRec
deriving Repr, DecidableEq

/-- A raw inbound ZeroMQ message: either a byte string that is not
parseable as JSON, or one that decodes to a JSON object. -/
inductive RawMsg
| malformed (raw : String)
| parsed (obj : ParsedObj)
deriving Repr, DecidableEq

/-- `json.loads`: raises `json.JSONDecodeError` (`Except.error`) on a
malformed message, returns the decoded object otherwise. -/
def json_loads : RawMsg → Except String ParsedObj
  | .malformed raw => .error raw
  | .parsed obj => .ok obj

/-- One iteration of the connected branch of
`Wrapper.monitor_command_stream` (lines 595-605): `resp` is the awaited
response (`none` models `resp is None`).  `json.loads` is called with no
surrounding exception handler, so a parse failure propagates
(`Except.error`) and terminates the loop.  On a status payload the loop
sets `self.connected = True`, runs `_handle_status` and sets
`self.status_recv = True`. -/
def monitor_command_body (s : WState) (resp : Option RawMsg) :
    Except (WState × Eff) (WState × Eff) :=
  match resp with
  | none => .ok (s, [])
  | some r =>
    match json_loads r with
    | .error _ => .error (s, [])
    | .ok obj =>
      match obj.status with
      | none => .ok (s, [])
      | some status =>
        let s := if ¬ s.connected then { s with connected := true } else s
        match handle_status s status with
        | .error p => .error p
        | .ok (s2, eff) => .ok ({ s2 with status_recv := true }, eff)

/-- One iteration of the connected branch of
`Wrapper.monitor_event_stream` (lines 622-634).  `json.loads` is again
unguarded, so a parse failure propagates and terminates the loop.  A frame
payload is written to the HDF5 file when one is open (the
`try ... except RuntimeError` around the write is represented by the write
itself, which does not fail in this model); otherwise a warning is
printed. -/
def monitor_event_body (s : WState) (resp : Option RawMsg) :
    Except (WState × Eff) (WState × Eff) :=
  match resp with
  | none => .ok (s, [])
  | some r =>
    match json_loads r with
    | .error _ => .error (s, [])
    | .ok obj =>
      match obj.frame with
      | none => .ok (s, [])
      | some fr =>
        match s.h5 with
        | some t => .ok ({ s with h5 := some (hdf_write_to_file t fr) }, [])
        | none => .ok (s, [])

/-- One iteration of the running branch of `Wrapper._query_status`
(lines 675-690): if a status reply had arrived, clear `status_recv` and
send a status request; otherwise set `self.connected = False` and resend
status requests while waiting (the inner wait loop is summarised by its
one write and one resend). -/
def query_status_body (s : WState) (running : Bool) : WState × Eff :=
  if ¬ running then (s, [])
  else if s.status_recv then
    ({ s with status_recv := false }, [Effect.sent Msg.reqStatus])
  else
    ({ s with connected := false }, [Effect.sent Msg.reqStatus])

/-- The wrapper state a monitor-loop iteration leaves behind, whether the
iteration completed or raised. -/
def loopState (r : Except (WState × Eff) (WState × Eff)) : WState :=
  match r with
  | .ok p => p.1
  | .error p => p.1

end New

/-! ### Concrete sample states used to instantiate the theorems -/

/-- A concrete sink value. -/
def sampleSink : Sink :=
  { state := 0, version := "", process_duration := 0, process_period := 0,
    last_frame_received := 0, last_frame_processed := 0,
    time_since_last_frame := 0, current_attenuation := 0 }

/-- A concrete packaged-wrapper state: connected, a file open, timeout 3. -/
def sampleW : New.WState :=
  { connected := true, status_recv := false, h5 := some ⟨[0], [0]⟩,
    timeout_rbv := 3, mode_rbv := 0, file_open_rec := 1, file_close_rec := 0,
    sink := sampleSink }

/-- `sampleW` with the connection flag cleared. -/
def sampleWDisc : New.WState := { sampleW with connected := false }

/-- A complete status payload with the given state code, last received
frame and elapsed time since the last frame. -/
def fullStatus (st lrf time : Int) : StatusDict :=
  [("state", st), ("version", 1), ("process_duration", 4), ("process_period", 5),
   ("last_received_frame", lrf), ("last_processed_frame", lrf),
   ("time_since_last_message", time), ("current_attenuation", 15)]

/-- A concrete legacy-wrapper state with a file open under a name that
differs from the currently requested full name. -/
def sampleOldOpen : Old.WState :=
  { h5f := some { filename := "b.h5", dsets := some ⟨[1], [2]⟩ },
    file_full_name := "c.h5", timeout_rbv := 3, sink := sampleSink }

/-- A concrete legacy-wrapper state with no file open. -/
def sampleOldClosed : Old.WState :=
  { h5f := none, file_full_name := "c.h5", timeout_rbv := 3, sink := sampleSink }

/-! ## Lemmas about the attenuation table -/

theorem grow_size_of_le (s f : Nat) (h : s ≤ f) : grow_size s f = f + 1 := by
  have key : ∀ k s2, f + 1 - s2 ≤ k → s2 ≤ f → grow_size s2 f = f + 1 := by
    intro k
    induction k with
    | zero => intro s2 hk hs; omega
    | succ n ih =>
      intro s2 hk hs
      rw [grow_size, if_pos hs]
      by_cases h2 : s2 + 1 ≤ f
      · exact ih (s2 + 1) (by omega) h2
      · have hsf : s2 = f := by omega
        subst hsf
        rw [grow_size, if_neg (by omega)]
  exact key (f + 1 - s) s le_rfl h

theorem dset_resize_length (l : List Int) (n : Nat) : (dset_resize l n).length = n := by
  simp [dset_resize]
  omega

theorem dset_resize_getElem (l : List Int) (n i : Nat) :
    (dset_resize l n)[i]? =
      if i < min n l.length then l[i]? else if i < n then some 0 else none := by
  unfold dset_resize
  by_cases h1 : i < min n l.length
  · rw [List.getElem?_append_left (by simp; omega), List.getElem?_take_of_lt (by omega),
      if_pos h1]
  · rw [List.getElem?_append_right (by simp; omega), List.getElem?_replicate, if_neg h1]
    simp only [List.length_take]
    split <;> split <;> first | rfl | (exfalso; omega)

theorem baseTable_adjustment_length (f : H5File) :
    (baseTable f).adjustment.length = baseLen f := rfl

theorem write_tableOf (f : H5File) (d : FrameRec) :
    tableOf (write_to_hdf5 f d) =
      ⟨(if baseLen f ≤ d.frame_number
          then dset_resize (baseTable f).adjustment (d.frame_number + 1)
          else (baseTable f).adjustment).set d.frame_number d.adjustment,
       (if baseLen f ≤ d.frame_number
          then dset_resize (baseTable f).attenuation (d.frame_number + 1)
          else (baseTable f).attenuation).set d.frame_number d.attenuation⟩ := by
  obtain ⟨name, dsets⟩ := f
  cases dsets with
  | none =>
    simp only [write_to_hdf5, tableOf, baseLen, baseTable, List.length_replicate]
    by_cases h : 128 ≤ d.frame_number
    · simp [h, grow_size_of_le _ _ h]
    · simp [h]
  | some t =>
    simp only [write_to_hdf5, tableOf, baseLen, baseTable]
    by_cases h : t.adjustment.length ≤ d.frame_number
    · simp [h, grow_size_of_le _ _ h]
    · simp [h]

theorem write_baseTable (f : H5File) (d : FrameRec) :
    baseTable (write_to_hdf5 f d) = tableOf (write_to_hdf5 f d) := by
  obtain ⟨name, dsets⟩ := f
  cases dsets with
  | none =>
    simp only [write_to_hdf5, baseTable, tableOf, Option.getD_some]
  | some t =>
    simp only [write_to_hdf5, baseTable, tableOf, Option.getD_some]

theorem write_adjLen (f : H5File) (d : FrameRec) :
    adjLen (write_to_hdf5 f d) = max (baseLen f) (d.frame_number + 1) := by
  simp only [adjLen, write_tableOf, List.length_set]
  split
  · rw [dset_resize_length]; omega
  · rw [baseTable_adjustment_length]; omega

theorem write_attLen (f : H5File) (d : FrameRec) :
    attLen (write_to_hdf5 f d) =
      if baseLen f ≤ d.frame_number then d.frame_number + 1 else baseAtt f := by
  simp only [attLen, write_tableOf, List.length_set]
  split
  · rw [dset_resize_length]
  · rfl

theorem write_adjGet_frame (f : H5File) (d : FrameRec) :
    adjGet (write_to_hdf5 f d) d.frame_number = some d.adjustment := by
  simp only [adjGet, write_tableOf]
  split
  · exact List.getElem?_set_self (by rw [dset_resize_length]; omega)
  · exact List.getElem?_set_self (by rw [baseTable_adjustment_length]; omega)

theorem write_attGet_frame (f : H5File) (d : FrameRec) (h : baseAtt f = baseLen f) :
    attGet (write_to_hdf5 f d) d.frame_number = some d.attenuation := by
  simp only [attGet, write_tableOf]
  split
  · exact List.getElem?_set_self (by rw [dset_resize_length]; omega)
  · refine List.getElem?_set_self ?_
    have h2 : (baseTable f).attenuation.length = baseAtt f := rfl
    omega

theorem write_adjGet_ne (f : H5File) (d : FrameRec) (i : Nat)
    (h : i ≠ d.frame_number) (hi : i < baseLen f) :
    adjGet (write_to_hdf5 f d) i = (baseTable f).adjustment[i]? := by
  simp only [adjGet, write_tableOf]
  rw [List.getElem?_set_ne (Ne.symm h)]
  split
  · rw [dset_resize_getElem, if_pos (by rw [baseTable_adjustment_length]; omega)]
  · rfl

theorem write_attGet_ne (f : H5File) (d : FrameRec) (i : Nat)
    (h : i ≠ d.frame_number) (hi : i < baseAtt f) (hle : baseAtt f ≤ baseLen f) :
    attGet (write_to_hdf5 f d) i = (baseTable f).attenuation[i]? := by
  simp only [attGet, write_tableOf]
  rw [List.getElem?_set_ne (Ne.symm h)]
  split
  · rw [dset_resize_getElem]
    have h2 : (baseTable f).attenuation.length = baseAtt f := rfl
    rw [if_pos (by omega)]
  · rfl

theorem dset_resize_zero (l : List Int) (n i : Nat)
    (h : l[i]? = some 0 ∨ l[i]? = none) :
    (dset_resize l n)[i]? = some 0 ∨ (dset_resize l n)[i]? = none := by
  rw [dset_resize_getElem]
  split
  · exact h
  · split
    · exact Or.inl rfl
    · exact Or.inr rfl

theorem baseTable_adj_zero (f : H5File) (i : Nat)
    (h : adjGet f i = some 0 ∨ adjGet f i = none) :
    (baseTable f).adjustment[i]? = some 0 ∨ (baseTable f).adjustment[i]? = none := by
  obtain ⟨name, dsets⟩ := f
  cases dsets with
  | none =>
    simp only [baseTable, List.getElem?_replicate]
    split
    · exact Or.inl rfl
    · exact Or.inr rfl
  | some t => exact h

theorem baseTable_att_zero (f : H5File) (i : Nat)
    (h : attGet f i = some 0 ∨ attGet f i = none) :
    (baseTable f).attenuation[i]? = some 0 ∨ (baseTable f).attenuation[i]? = none := by
  obtain ⟨name, dsets⟩ := f
  cases dsets with
  | none =>
    simp only [baseTable, List.getElem?_replicate]
    split
    · exact Or.inl rfl
    · exact Or.inr rfl
  | some t => exact h

theorem write_zero_step (f : H5File) (d : FrameRec) (i : Nat)
    (hne : i ≠ d.frame_number)
    (ha : adjGet f i = some 0 ∨ adjGet f i = none)
    (hb : attGet f i = some 0 ∨ attGet f i = none) :
    (adjGet (write_to_hdf5 f d) i = some 0 ∨ adjGet (write_to_hdf5 f d) i = none) ∧
    (attGet (write_to_hdf5 f d) i = some 0 ∨ attGet (write_to_hdf5 f d) i = none) := by
  have ha2 := baseTable_adj_zero f i ha
  have hb2 := baseTable_att_zero f i hb
  simp only [adjGet, attGet, write_tableOf]
  rw [List.getElem?_set_ne (Ne.symm hne), List.getElem?_set_ne (Ne.symm hne)]
  constructor
  · split
    · exact dset_resize_zero _ _ _ ha2
    · exact ha2
  · split
    · exact dset_resize_zero _ _ _ hb2
    · exact hb2

theorem applyWrites_append (f : H5File) (ws : List FrameRec) (r : FrameRec) :
    applyWrites f (ws ++ [r]) = write_to_hdf5 (applyWrites f ws) r := by
  simp [applyWrites]

theorem applyWrites_zero (ws : List FrameRec) (f : H5File) (i : Nat)
    (ha : adjGet f i = some 0 ∨ adjGet f i = none)
    (hb : attGet f i = some 0 ∨ attGet f i = none)
    (h : ∀ w ∈ ws, w.frame_number ≠ i) :
    (adjGet (applyWrites f ws) i = some 0 ∨ adjGet (applyWrites f ws) i = none) ∧
    (attGet (applyWrites f ws) i = some 0 ∨ attGet (applyWrites f ws) i = none) := by
  induction ws generalizing f with
  | nil => exact ⟨ha, hb⟩
  | cons w ws ih =>
    have hw : i ≠ w.frame_number := (h w (List.mem_cons_self w ws)).symm
    have step := write_zero_step f w i hw ha hb
    exact ih (write_to_hdf5 f w) step.1 step.2
      (fun w2 hw2 => h w2 (List.mem_cons_of_mem w hw2))

theorem write_eqlen (f : H5File) (d : FrameRec) (h : baseAtt f = baseLen f) :
    attLen (write_to_hdf5 f d) = adjLen (write_to_hdf5 f d) := by
  rw [write_attLen, write_adjLen]
  split <;> omega

theorem write_inv (f : H5File) (d : FrameRec) (h : baseAtt f = baseLen f) :
    baseAtt (write_to_hdf5 f d) = baseLen (write_to_hdf5 f d) := by
  have h1 : baseAtt (write_to_hdf5 f d) = attLen (write_to_hdf5 f d) := by
    simp only [baseAtt, attLen, write_baseTable]
  have h2 : baseLen (write_to_hdf5 f d) = adjLen (write_to_hdf5 f d) := by
    simp only [baseLen, adjLen, write_baseTable]
  rw [h1, h2, write_eqlen f d h]

theorem applyWrites_inv (ws : List FrameRec) (f : H5File) (h : baseAtt f = baseLen f) :
    baseAtt (applyWrites f ws) = baseLen (applyWrites f ws) := by
  induction ws generalizing f with
  | nil => exact h
  | cons w ws ih => exact ih (write_to_hdf5 f w) (write_inv f w h)

theorem adjLen_le_baseLen (f : H5File) : adjLen f ≤ baseLen f := by
  obtain ⟨name, dsets⟩ := f
  cases dsets with
  | none => simp [adjLen, baseLen, tableOf, baseTable]
  | some t => exact le_refl _

theorem attLen_le_baseAtt (f : H5File) : attLen f ≤ baseAtt f := by
  obtain ⟨name, dsets⟩ := f
  cases dsets with
  | none => simp [attLen, baseAtt, tableOf, baseTable]
  | some t => exact le_refl _

theorem adjGet_none_iff (f : H5File) (i : Nat) : adjGet f i = none ↔ adjLen f ≤ i := by
  simp [adjGet, adjLen, List.getElem?_eq_none_iff]

theorem attGet_none_iff (f : H5File) (i : Nat) : attGet f i = none ↔ attLen f ≤ i := by
  simp [attGet, attLen, List.getElem?_eq_none_iff]

/-! ## Claim C1 -/

/-- C1: After writing the record with frame number `N` at the end of any
sequence of frame writes to a freshly opened attenuation file, the
adjustment and attenuation sequences have identical length, that length is
at least `N + 1`, every slot `i < N` that no write of the sequence ever
touched reads back the default fill value `0`, and no single write ever
shrinks either sequence (the last part stated for every file satisfying
the equal-length dataset invariant that `_write_to_hdf5` asserts). -/
theorem attenuation_table_growth_invariant (name : String) (ws : List FrameRec)
    (r : FrameRec) :
    adjLen (applyWrites (freshFile name) (ws ++ [r])) =
      attLen (applyWrites (freshFile name) (ws ++ [r])) ∧
    r.frame_number + 1 ≤ adjLen (applyWrites (freshFile name) (ws ++ [r])) ∧
    (∀ i, i < r.frame_number → (∀ w ∈ ws ++ [r], w.frame_number ≠ i) →
      adjGet (applyWrites (freshFile name) (ws ++ [r])) i = some 0 ∧
      attGet (applyWrites (freshFile name) (ws ++ [r])) i = some 0) ∧
    (∀ (f : H5File) (w : FrameRec), baseAtt f = baseLen f →
      adjLen f ≤ adjLen (write_to_hdf5 f w) ∧
      attLen f ≤ attLen (write_to_hdf5 f w)) := by
  have hG : baseAtt (applyWrites (freshFile name) ws) =
      baseLen (applyWrites (freshFile name) ws) :=
    applyWrites_inv ws (freshFile name) rfl
  have heq : adjLen (applyWrites (freshFile name) (ws ++ [r])) =
      attLen (applyWrites (freshFile name) (ws ++ [r])) := by
    rw [applyWrites_append]
    exact (write_eqlen _ r hG).symm
  have hlen : r.frame_number + 1 ≤ adjLen (applyWrites (freshFile name) (ws ++ [r])) := by
    rw [applyWrites_append, write_adjLen]
    omega
  refine ⟨heq, hlen, ?_, ?_⟩
  · intro i hi hub
    have hz := applyWrites_zero (ws ++ [r]) (freshFile name) i
      (Or.inr (by simp [adjGet, tableOf, freshFile]))
      (Or.inr (by simp [attGet, tableOf, freshFile])) hub
    constructor
    · rcases hz.1 with h | h
      · exact h
      · rw [adjGet_none_iff] at h
        omega
    · rcases hz.2 with h | h
      · exact h
      · rw [attGet_none_iff] at h
        omega
  · intro f w hfi
    refine ⟨?_, ?_⟩
    · have h1 := adjLen_le_baseLen f
      have h2 := write_adjLen f w
      omega
    · have h1 := attLen_le_baseAtt f
      rw [write_attLen]
      by_cases hg : baseLen f ≤ w.frame_number
      · rw [if_pos hg]; omega
      · rw [if_neg hg]; omega

/-- Witness for C1 at a concrete input: writes to frames 2 and then 4
leave the untouched slot 1 at the default fill value `0` in both
sequences. -/
theorem attenuation_table_growth_invariant_witness :
    adjGet (applyWrites (freshFile "a.h5") ([⟨2, 5, 7⟩] ++ [⟨4, 9, 9⟩])) 1 = some 0 ∧
    attGet (applyWrites (freshFile "a.h5") ([⟨2, 5, 7⟩] ++ [⟨4, 9, 9⟩])) 1 = some 0 :=
  (attenuation_table_growth_invariant "a.h5" [⟨2, 5, 7⟩] ⟨4, 9, 9⟩).2.2.1 1
    (by decide) (by decide)

/-! ## Claim C9 -/

/-- C9: Writing the same frame number twice with different values leaves
the later pair readable at that slot (last-write-wins); writing a frame
number below the current high-water mark (within the current length)
keeps both lengths unchanged and leaves every other slot untouched.  The
equal-length hypothesis is the dataset invariant asserted by
`_write_to_hdf5` itself. -/
theorem last_write_wins_no_truncation (f : H5File) (t : Table) (hf : f.dsets = some t)
    (hlen : t.attenuation.length = t.adjustment.length) (n : Nat) (a b a2 b2 : Int) :
    adjGet (write_to_hdf5 (write_to_hdf5 f ⟨n, a, b⟩) ⟨n, a2, b2⟩) n = some a2 ∧
    attGet (write_to_hdf5 (write_to_hdf5 f ⟨n, a, b⟩) ⟨n, a2, b2⟩) n = some b2 ∧
    (n < t.adjustment.length →
      adjLen (write_to_hdf5 f ⟨n, a, b⟩) = adjLen f ∧
      attLen (write_to_hdf5 f ⟨n, a, b⟩) = attLen f ∧
      (∀ i, i ≠ n →
        adjGet (write_to_hdf5 f ⟨n, a, b⟩) i = adjGet f i ∧
        attGet (write_to_hdf5 f ⟨n, a, b⟩) i = attGet f i)) := by
  have hbase : baseTable f = t := by simp [baseTable, hf]
  have htab : tableOf f = t := by simp [tableOf, hf]
  have hbl : baseLen f = t.adjustment.length := by rw [baseLen, hbase]
  have hba : baseAtt f = t.attenuation.length := by rw [baseAtt, hbase]
  have hInv : baseAtt f = baseLen f := by rw [hba, hbl, hlen]
  have hal : adjLen f = t.adjustment.length := by rw [adjLen, htab]
  have hatl : attLen f = t.attenuation.length := by rw [attLen, htab]
  have hfr : (⟨n, a, b⟩ : FrameRec).frame_number = n := rfl
  refine ⟨write_adjGet_frame _ _, write_attGet_frame _ _ (write_inv f ⟨n, a, b⟩ hInv), ?_⟩
  intro hn
  have hnogrow : ¬ baseLen f ≤ n := by omega
  refine ⟨?_, ?_, ?_⟩
  · rw [write_adjLen, hal]
    omega
  · rw [write_attLen, if_neg hnogrow, hba, hatl]
  · intro i hi
    constructor
    · by_cases hib : i < baseLen f
      · rw [write_adjGet_ne f ⟨n, a, b⟩ i hi hib, hbase, adjGet, htab]
      · have h1 : adjGet (write_to_hdf5 f ⟨n, a, b⟩) i = none := by
          rw [adjGet_none_iff, write_adjLen]
          omega
        have h2 : adjGet f i = none := by
          rw [adjGet_none_iff]
          omega
        rw [h1, h2]
    · by_cases hib : i < baseAtt f
      · rw [write_attGet_ne f ⟨n, a, b⟩ i hi hib (le_of_eq hInv), hbase, attGet, htab]
      · have h1 : attGet (write_to_hdf5 f ⟨n, a, b⟩) i = none := by
          rw [attGet_none_iff, write_attLen, if_neg hnogrow]
          omega
        have h2 : attGet f i = none := by
          rw [attGet_none_iff]
          omega
        rw [h1, h2]

/-- Witness for C9 at a concrete input: frame 1 written twice reads back
the second pair, and slot 0 is untouched. -/
theorem last_write_wins_no_truncation_witness :
    adjGet (write_to_hdf5 (write_to_hdf5
        { filename := "a.h5", dsets := some ⟨[1, 2, 3], [4, 5, 6]⟩ } ⟨1, 7, 8⟩) ⟨1, 9, 10⟩) 1 =
      some 9 ∧
    attGet (write_to_hdf5 (write_to_hdf5
        { filename := "a.h5", dsets := some ⟨[1, 2, 3], [4, 5, 6]⟩ } ⟨1, 7, 8⟩) ⟨1, 9, 10⟩) 1 =
      some 10 ∧
    adjGet (write_to_hdf5
        { filename := "a.h5", dsets := some ⟨[1, 2, 3], [4, 5, 6]⟩ } ⟨1, 7, 8⟩) 0 =
      adjGet { filename := "a.h5", dsets := some ⟨[1, 2, 3], [4, 5, 6]⟩ } 0 := by
  have h := last_write_wins_no_truncation
    { filename := "a.h5", dsets := some ⟨[1, 2, 3], [4, 5, 6]⟩ } ⟨[1, 2, 3], [4, 5, 6]⟩
    rfl (by decide) 1 7 8 9 10
  exact ⟨h.1, h.2.1, ((h.2.2 (by decide)).2.2 0 (by decide)).1⟩

/-! ## Lemmas about the packaged wrapper -/

theorem close_file_sink (s : New.WState) (x : Int) :
    (New.close_file s x).1.sink = s.sink := by
  unfold New.close_file New.if_connected New.close_file_body
  split
  · rfl
  · dsimp only
    split <;> split <;> rfl

theorem close_file_connected (s : New.WState) (x : Int) :
    (New.close_file s x).1.connected = s.connected := by
  unfold New.close_file New.if_connected New.close_file_body
  split
  · rfl
  · dsimp only
    split <;> split <;> rfl

theorem hs_connected (s : New.WState) (d : StatusDict) :
    (New.hsState s d).connected = s.connected := by
  unfold New.hsState New.hsOut New.handle_status
  cases d.lookup "state" with
  | none => rfl
  | some v0 =>
  cases d.lookup "version" with
  | none => rfl
  | some v1 =>
  cases d.lookup "process_duration" with
  | none => rfl
  | some v2 =>
  cases d.lookup "process_period" with
  | none => rfl
  | some v3 =>
  cases d.lookup "last_received_frame" with
  | none => rfl
  | some v4 =>
  cases d.lookup "last_processed_frame" with
  | none => rfl
  | some v5 =>
  cases d.lookup "time_since_last_message" with
  | none => rfl
  | some v6 =>
  cases d.lookup "current_attenuation" with
  | none =>
    dsimp only
    split
    · rw [close_file_connected]
    · rfl
  | some v7 =>
    dsimp only
    split
    · rw [close_file_connected]
    · rfl

/-! ## Claim C3 -/

/-- C3: whatever else the status dictionary contains, the state code `v`
read from it is published wrapped: `v + 16` when `v < 0`, `v` unchanged
otherwise. -/
theorem state_code_wrap (s : New.WState) (d : StatusDict) (v : Int)
    (hv : d.lookup "state" = some v) :
    (New.hsState s d).sink.state = if v < 0 then v + 16 else v := by
  have harith : (if v < 0 then 16 + v else v) = if v < 0 then v + 16 else v := by
    split <;> omega
  rw [← harith]
  unfold New.hsState New.hsOut New.handle_status
  rw [hv]
  cases d.lookup "version" with
  | none => rfl
  | some v1 =>
  cases d.lookup "process_duration" with
  | none => rfl
  | some v2 =>
  cases d.lookup "process_period" with
  | none => rfl
  | some v3 =>
  cases d.lookup "last_received_frame" with
  | none => rfl
  | some v4 =>
  cases d.lookup "last_processed_frame" with
  | none => rfl
  | some v5 =>
  cases d.lookup "time_since_last_message" with
  | none => rfl
  | some v6 =>
  cases d.lookup "current_attenuation" with
  | none =>
    dsimp only
    split
    · rw [close_file_sink]
    · rfl
  | some v7 =>
    dsimp only
    split
    · rw [close_file_sink]
    · rfl

/-- Witness for C3: a status with state code `-1` publishes `15`; one with
state code `2` publishes `2`. -/
theorem state_code_wrap_witness :
    (New.hsState sampleW (fullStatus (-1) 1 0)).sink.state = 15 ∧
    (New.hsState sampleW (fullStatus 2 1 0)).sink.state = 2 := by
  constructor
  · rw [state_code_wrap sampleW (fullStatus (-1) 1 0) (-1) rfl]
    decide
  · rw [state_code_wrap sampleW (fullStatus 2 1 0) 2 rfl]
    decide

/-! ## Claim C2 -/

/-- C2: the packaged `_handle_status` instructs a close only when
`last_received_frame > 1`.  At a status reporting elapsed time `10` above
the timeout `3` with `last_received_frame = 1` — at least one frame
received — no close is instructed (no `closeCall` effect, the file stays
open), although the code comment ("Check that at least 1 frame has been
received before timing out") and the spec require one; the same status
with `last_received_frame = 2` does close the file. -/
theorem timeout_close_requires_more_than_one_frame :
    ((10 : Int) > sampleW.timeout_rbv ∧ sampleW.connected = true ∧
      sampleW.h5.isSome = true ∧
      (fullStatus 2 1 10).lookup "last_received_frame" = some 1) ∧
    New.hsEff sampleW (fullStatus 2 1 10) = [] ∧
    (New.hsState sampleW (fullStatus 2 1 10)).h5 = sampleW.h5 ∧
    New.hsEff sampleW (fullStatus 2 2 10) = [Effect.closeCall] ∧
    (New.hsState sampleW (fullStatus 2 2 10)).h5 = none := by
  refine ⟨⟨by decide, rfl, rfl, rfl⟩, rfl, rfl, rfl, rfl⟩

/-! ## Claim C6 -/

/-- C6: while disconnected, any `_if_connected`-wrapped operation leaves
the state unchanged, performs no effect (no message sent), returns
instead of raising, and reports the outcome via its return value `True`;
in particular `_set_timeout` does. -/
theorem disconnected_command_noop (f : New.WState → New.WState × Eff × Option Bool)
    (s : New.WState) (h : s.connected = false) :
    New.if_connected f s = (s, [], some true) ∧
    (∀ t : Int, New.set_timeout s t = (s, [], some true)) := by
  have hg : ∀ g, New.if_connected g s = (s, [], some true) := by
    intro g
    unfold New.if_connected
    rw [h]
    simp
  exact ⟨hg f, fun t => hg (New.set_timeout_body t)⟩

/-- Witness for C6 at a concrete disconnected state and operation. -/
theorem disconnected_command_noop_witness :
    New.if_connected (New.set_timeout_body 7) sampleWDisc = (sampleWDisc, [], some true) ∧
    New.set_timeout sampleWDisc 7 = (sampleWDisc, [], some true) := by
  have h := disconnected_command_noop (New.set_timeout_body 7) sampleWDisc rfl
  exact ⟨h.1, h.2 7⟩

/-! ## Claim C7 -/

/-- C7: `_open_file` while a file with a different name is open returns
`False` without raising and leaves the entire state — the open handle and
its table contents — unchanged. -/
theorem open_second_file_rejected (s : Old.WState) (cp : Bool) (f : H5File)
    (hf : s.h5f = some f) (hne : s.file_full_name ≠ f.filename) :
    Old.open_file s cp = (s, false) := by
  unfold Old.open_file
  rw [hf]
  simp [hne]

/-- Witness for C7 at a concrete state: file `b.h5` open, `c.h5`
requested. -/
theorem open_second_file_rejected_witness :
    Old.open_file sampleOldOpen true = (sampleOldOpen, false) :=
  open_second_file_rejected sampleOldOpen true
    { filename := "b.h5", dsets := some ⟨[1], [2]⟩ } rfl (by decide)

/-! ## Claim C8 -/

/-- C8 counterexample: calling `_close_file` when no output file is open
raises `AssertionError` at a concrete state — it is not an idempotent
no-op. -/
theorem close_when_nothing_open_raises :
    Old.close_file sampleOldClosed = Except.error "AssertionError" := rfl

/-- C8 amended: `_close_file` raises an assertion error when no file is
open instead of being an idempotent no-op; when a file is open it
releases the handle; the status handler guards its close call behind an
is-open check and an exception handler, so a status message arriving with
no file open leaves the handle absent with no close error escaping. -/
theorem close_file_not_idempotent (s : Old.WState) :
    (s.h5f = none → Old.close_file s = Except.error "AssertionError") ∧
    (∀ f : H5File, s.h5f = some f →
      Old.close_file s = Except.ok { s with h5f := none }) ∧
    (∀ d : StatusDict, s.h5f = none → (Old.hsState s d).h5f = none) := by
  refine ⟨?_, ?_, ?_⟩
  · intro h
    unfold Old.close_file
    rw [h]
  · intro f h
    unfold Old.close_file
    rw [h]
  · intro d h
    unfold Old.hsState Old.handle_status
    cases d.lookup "state" with
    | none => exact h
    | some v0 =>
    cases d.lookup "version" with
    | none => exact h
    | some v1 =>
    cases d.lookup "process_duration" with
    | none => exact h
    | some v2 =>
    cases d.lookup "process_period" with
    | none => exact h
    | some v3 =>
    cases d.lookup "last_received_frame" with
    | none => exact h
    | some v4 =>
    cases d.lookup "last_processed_frame" with
    | none => exact h
    | some v5 =>
    cases d.lookup "time_since_last_message" with
    | none => exact h
    | some v6 =>
    cases d.lookup "current_attenuation" with
    | none =>
      dsimp only
      simp [h]
    | some v7 =>
      dsimp only
      simp [h]

/-- Witness for C8 amended at concrete states: with a file open the close
succeeds and clears the handle; with none open a timed-out status leaves
the handle absent. -/
theorem close_file_not_idempotent_witness :
    Old.close_file sampleOldOpen = Except.ok { sampleOldOpen with h5f := none } ∧
    (Old.hsState sampleOldClosed (fullStatus 2 1 10)).h5f = none :=
  ⟨(close_file_not_idempotent sampleOldOpen).2.1 _ rfl,
    (close_file_not_idempotent sampleOldClosed).2.2 (fullStatus 2 1 10) rfl⟩

/-! ## Claim C4 -/

/-- C4 counterexample: a message that is not parseable as JSON makes the
command-monitor iteration raise — the decode error escapes `json.loads`
uncaught, terminating the monitor loop instead of being dropped. -/
theorem malformed_message_raises :
    New.monitor_command_body sampleW (some (New.RawMsg.malformed "not json")) =
      Except.error (sampleW, []) := rfl

/-- C4 amended: on both monitor loops, a message that parses as JSON but
lacks the expected key is dropped and the iteration completes normally
with the state unchanged; but a message that fails JSON parsing raises an
uncaught decode error that terminates the loop — no handler catches it. -/
theorem monitor_loops_drop_only_parsed_messages (s : New.WState) :
    (∀ raw, New.monitor_command_body s (some (New.RawMsg.malformed raw)) =
      Except.error (s, [])) ∧
    (∀ raw, New.monitor_event_body s (some (New.RawMsg.malformed raw)) =
      Except.error (s, [])) ∧
    (∀ obj : New.ParsedObj, obj.status = none →
      New.monitor_command_body s (some (New.RawMsg.parsed obj)) = Except.ok (s, [])) ∧
    (∀ obj : New.ParsedObj, obj.frame = none →
      New.monitor_event_body s (some (New.RawMsg.parsed obj)) = Except.ok (s, [])) := by
  refine ⟨fun raw => rfl, fun raw => rfl, ?_, ?_⟩
  · intro obj hobj
    unfold New.monitor_command_body New.json_loads
    dsimp only
    rw [hobj]
  · intro obj hobj
    unfold New.monitor_event_body New.json_loads
    dsimp only
    rw [hobj]

/-- Witness for C4 amended at a concrete message with neither expected
key. -/
theorem monitor_loops_drop_only_parsed_messages_witness :
    New.monitor_command_body sampleW (some (New.RawMsg.parsed ⟨none, none⟩)) =
      Except.ok (sampleW, []) :=
  (monitor_loops_drop_only_parsed_messages sampleW).2.2.1 ⟨none, none⟩ rfl

/-! ## Claim C5 -/

theorem query_status_connected (s : New.WState) (running : Bool) :
    (New.query_status_body s running).1.connected = s.connected ∨
    (New.query_status_body s running).1.connected = false := by
  unfold New.query_status_body
  split
  · exact Or.inl rfl
  · split
    · exact Or.inl rfl
    · exact Or.inr rfl

theorem monitor_command_connected (s : New.WState) (resp : Option New.RawMsg) :
    (New.loopState (New.monitor_command_body s resp)).connected = s.connected ∨
    (New.loopState (New.monitor_command_body s resp)).connected = true := by
  cases resp with
  | none => exact Or.inl rfl
  | some r =>
  cases r with
  | malformed raw => exact Or.inl rfl
  | parsed obj =>
  cases hst : obj.status with
  | none =>
    left
    unfold New.loopState New.monitor_command_body New.json_loads
    dsimp only
    rw [hst]
  | some st =>
  right
  unfold New.loopState New.monitor_command_body New.json_loads
  dsimp only
  rw [hst]
  dsimp only
  set s2 : New.WState :=
    if ¬ s.connected = true then { s with connected := true } else s with hs2def
  have h2 : s2.connected = true := by
    rw [hs2def]
    by_cases hc : s.connected
    · simp [hc]
    · simp [hc]
  have hcon := hs_connected s2 st
  unfold New.hsState New.hsOut at hcon
  cases hh : New.handle_status s2 st with
  | error p =>
    rw [hh] at hcon
    dsimp only at hcon ⊢
    rw [hcon]
    exact h2
  | ok p =>
    obtain ⟨s3, eff⟩ := p
    rw [hh] at hcon
    dsimp only at hcon ⊢
    rw [hcon]
    exact h2

theorem monitor_event_connected (s : New.WState) (resp : Option New.RawMsg) :
    (New.loopState (New.monitor_event_body s resp)).connected = s.connected := by
  cases resp with
  | none => rfl
  | some r =>
  cases r with
  | malformed raw => rfl
  | parsed obj =>
  cases hfr : obj.frame with
  | none =>
    unfold New.loopState New.monitor_event_body New.json_loads
    dsimp only
    rw [hfr]
  | some fr =>
    unfold New.loopState New.monitor_event_body New.json_loads
    dsimp only
    rw [hfr]
    cases hh : s.h5 with
    | none => rfl
    | some t => rfl

theorem set_timeout_connected (s : New.WState) (t : Int) :
    (New.set_timeout s t).1.connected = s.connected := by
  unfold New.set_timeout New.if_connected New.set_timeout_body
  split <;> rfl

/-- C5 counterexample: one command-monitor iteration on a status message
flips `connected` from `false` to `true` — the command-stream
demultiplexer, not the Status Poller, writes the connection flag. -/
theorem demultiplexer_writes_connected :
    sampleWDisc.connected = false ∧
    (New.loopState (New.monitor_command_body sampleWDisc
      (some (New.RawMsg.parsed ⟨some (fullStatus 2 1 0), none⟩)))).connected = true :=
  ⟨rfl, rfl⟩

/-- C5 amended: `connected` is cleared only by the status poller and set
only by the command-stream monitor — the poller iteration never raises
the flag, the command-monitor iteration never lowers it, and the event
monitor, the status handler, the recorder close path and the
`_if_connected`-guarded operations never change it. -/
theorem connected_flag_ownership :
    (∀ (s : New.WState) (running : Bool),
      (New.query_status_body s running).1.connected = s.connected ∨
      (New.query_status_body s running).1.connected = false) ∧
    (∀ (s : New.WState) (resp : Option New.RawMsg),
      (New.loopState (New.monitor_command_body s resp)).connected = s.connected ∨
      (New.loopState (New.monitor_command_body s resp)).connected = true) ∧
    (∀ (s : New.WState) (resp : Option New.RawMsg),
      (New.loopState (New.monitor_event_body s resp)).connected = s.connected) ∧
    (∀ (s : New.WState) (d : StatusDict), (New.hsState s d).connected = s.connected) ∧
    (∀ (s : New.WState) (x : Int), (New.close_file s x).1.connected = s.connected) ∧
    (∀ (s : New.WState) (t : Int), (New.set_timeout s t).1.connected = s.connected) :=
  ⟨query_status_connected, monitor_command_connected, monitor_event_connected,
    hs_connected, close_file_connected, set_timeout_connected⟩

/-! ## Claim C10 -/

/-- C10: `_handle_status` reads and publishes the eight status fields in
the fixed order state, version, process_duration, process_period,
last_received_frame, last_processed_frame, time_since_last_message,
current_attenuation; when the first missing key is hit a key-lookup error
is raised after exactly the preceding fields have been published, so a
partial payload leaves the sink partially updated — publication is not
atomic on error — and only a payload with all eight keys completes with
the full update. -/
theorem status_publication_order_not_atomic :
    (∀ (s : New.WState) (d : StatusDict),
      d.lookup "state" = none → New.handle_status s d = Except.error (s, [])) ∧
    (∀ (s : New.WState) (d : StatusDict) (v0 : Int),
      d.lookup "state" = some v0 → d.lookup "version" = none →
      New.handle_status s d = Except.error
        ({ s with sink := { s.sink with
            state := if v0 < 0 then 16 + v0 else v0 } }, [])) ∧
    (∀ (s : New.WState) (d : StatusDict) (v0 v1 : Int),
      d.lookup "state" = some v0 → d.lookup "version" = some v1 →
      d.lookup "process_duration" = none →
      New.handle_status s d = Except.error
        ({ s with sink := { s.sink with
            state := if v0 < 0 then 16 + v0 else v0,
            version := toString v1 } }, [])) ∧
    (∀ (s : New.WState) (d : StatusDict) (v0 v1 v2 : Int),
      d.lookup "state" = some v0 → d.lookup "version" = some v1 →
      d.lookup "process_duration" = some v2 →
      d.lookup "process_period" = none →
      New.handle_status s d = Except.error
        ({ s with sink := { s.sink with
            state := if v0 < 0 then 16 + v0 else v0,
            version := toString v1, process_duration := v2 } }, [])) ∧
    (∀ (s : New.WState) (d : StatusDict) (v0 v1 v2 v3 : Int),
      d.lookup "state" = some v0 → d.lookup "version" = some v1 →
      d.lookup "process_duration" = some v2 →
      d.lookup "process_period" = some v3 →
      d.lookup "last_received_frame" = none →
      New.handle_status s d = Except.error
        ({ s with sink := { s.sink with
            state := if v0 < 0 then 16 + v0 else v0,
            version := toString v1, process_duration := v2,
            process_period := v3 } }, [])) ∧
    (∀ (s : New.WState) (d : StatusDict) (v0 v1 v2 v3 v4 : Int),
      d.lookup "state" = some v0 → d.lookup "version" = some v1 →
      d.lookup "process_duration" = some v2 →
      d.lookup "process_period" = some v3 →
      d.lookup "last_received_frame" = some v4 →
      d.lookup "last_processed_frame" = none →
      New.handle_status s d = Except.error
        ({ s with sink := { s.sink with
            state := if v0 < 0 then 16 + v0 else v0,
            version := toString v1, process_duration := v2,
            process_period := v3, last_frame_received := v4 } }, [])) ∧
    (∀ (s : New.WState) (d : StatusDict) (v0 v1 v2 v3 v4 v5 : Int),
      d.lookup "state" = some v0 → d.lookup "version" = some v1 →
      d.lookup "process_duration" = some v2 →
      d.lookup "process_period" = some v3 →
      d.lookup "last_received_frame" = some v4 →
      d.lookup "last_processed_frame" = some v5 →
      d.lookup "time_since_last_message" = none →
      New.handle_status s d = Except.error
        ({ s with sink := { s.sink with
            state := if v0 < 0 then 16 + v0 else v0,
            version := toString v1, process_duration := v2,
            process_period := v3, last_frame_received := v4,
            last_frame_processed := v5 } }, [])) ∧
    (∀ (s : New.WState) (d : StatusDict) (v0 v1 v2 v3 v4 v5 v6 : Int),
      d.lookup "state" = some v0 → d.lookup "version" = some v1 →
      d.lookup "process_duration" = some v2 →
      d.lookup "process_period" = some v3 →
      d.lookup "last_received_frame" = some v4 →
      d.lookup "last_processed_frame" = some v5 →
      d.lookup "time_since_last_message" = some v6 →
      d.lookup "current_attenuation" = none →
      New.hsRaised s d = true ∧
      (New.hsState s d).sink = { s.sink with
        state := if v0 < 0 then 16 + v0 else v0,
        version := toString v1, process_duration := v2,
        process_period := v3, last_frame_received := v4,
        last_frame_processed := v5, time_since_last_frame := v6 }) ∧
    (∀ (s : New.WState) (d : StatusDict) (v0 v1 v2 v3 v4 v5 v6 v7 : Int),
      d.lookup "state" = some v0 → d.lookup "version" = some v1 →
      d.lookup "process_duration" = some v2 →
      d.lookup "process_period" = some v3 →
      d.lookup "last_received_frame" = some v4 →
      d.lookup "last_processed_frame" = some v5 →
      d.lookup "time_since_last_message" = some v6 →
      d.lookup "current_attenuation" = some v7 →
      New.hsRaised s d = false ∧
      (New.hsState s d).sink = { s.sink with
        state := if v0 < 0 then 16 + v0 else v0,
        version := toString v1, process_duration := v2,
        process_period := v3, last_frame_received := v4,
        last_frame_processed := v5, time_since_last_frame := v6,
        current_attenuation := v7 }) := by
  refine ⟨?_, ?_, ?_, ?_, ?_, ?_, ?_, ?_, ?_⟩
  · intro s d h0
    unfold New.handle_status
    rw [h0]
  · intro s d v0 h0 h1
    unfold New.handle_status
    rw [h0, h1]
  · intro s d v0 v1 h0 h1 h2
    unfold New.handle_status
    rw [h0, h1, h2]
  · intro s d v0 v1 v2 h0 h1 h2 h3
    unfold New.handle_status
    rw [h0, h1, h2, h3]
  · intro s d v0 v1 v2 v3 h0 h1 h2 h3 h4
    unfold New.handle_status
    rw [h0, h1, h2, h3, h4]
  · intro s d v0 v1 v2 v3 v4 h0 h1 h2 h3 h4 h5
    unfold New.handle_status
    rw [h0, h1, h2, h3, h4, h5]
  · intro s d v0 v1 v2 v3 v4 v5 h0 h1 h2 h3 h4 h5 h6
    unfold New.handle_status
    rw [h0, h1, h2, h3, h4, h5, h6]
  · intro s d v0 v1 v2 v3 v4 v5 v6 h0 h1 h2 h3 h4 h5 h6 h7
    constructor
    · unfold New.hsRaised New.handle_status
      rw [h0, h1, h2, h3, h4, h5, h6, h7]
    · unfold New.hsState New.hsOut New.handle_status
      rw [h0, h1, h2, h3, h4, h5, h6, h7]
      dsimp only
      split
      · rw [close_file_sink]
      · rfl
  · intro s d v0 v1 v2 v3 v4 v5 v6 v7 h0 h1 h2 h3 h4 h5 h6 h7
    constructor
    · unfold New.hsRaised New.handle_status
      rw [h0, h1, h2, h3, h4, h5, h6, h7]
    · unfold New.hsState New.hsOut New.handle_status
      rw [h0, h1, h2, h3, h4, h5, h6, h7]
      dsimp only
      split
      · rw [close_file_sink]
      · rfl

/-- Witness for C10 at a concrete two-key payload: `_handle_status`
raises after publishing `state` and `version` only. -/
theorem status_publication_order_not_atomic_witness :
    New.handle_status sampleW [("state", 2), ("version", 3)] =
      Except.error ({ sampleW with sink := { sampleW.sink with
        state := 2, version := "3" } }, []) := by
  have h := status_publication_order_not_atomic.2.2.1 sampleW
    [("state", 2), ("version", 3)] 2 3 rfl rfl rfl
  simpa using h

end PFC
